import Mathlib

/-!
# Brasil weather report (CEP → temperature) — verification of the two-service pipeline

Shallow embedding of the core request pipeline of the two Go services:

* `servico_a/main.go` — `isValidCep`, `handleCepRequest`, `forwardRequestToServiceB`
* `servico_b/main.go` — `isValidCep`, `weatherHandler`, `SearchCep`, `GetWeather`

Modelling conventions:

* Go `float64` values are binary64 numbers, modelled as the exact rationals
  they denote; each arithmetic operation of the source (`tempC*1.8`, `+32`,
  `+273`) rounds its exact result to the nearest binary64 value (ties to
  even), via `fl64`.  The literal `1.8` is itself the binary64 value nearest
  9/5.  Overflow and subnormals are not modelled: every value in this
  development is far inside the normal range, where `fl64` agrees with
  IEEE-754 round-to-nearest.
* The external world (ViaCEP, WeatherAPI, Service B as seen from Service A)
  is an explicit environment value passed to each function: either a
  transport-level failure of `http.Client.Do` or a response consisting of a
  status code and the outcome of decoding the body.
* `http.Client.Do` failures are `*url.Error` values; their `Error()` string
  is `op ++ " \"" ++ url ++ "\": " ++ inner`, which the model renders
  faithfully (the orchestrator compares error strings, so the rendering
  matters).  `encoding/json` decode failures are one of the concrete error
  shapes that package produces.  `http.NewRequestWithContext` on the URLs
  built here (well-formed literals) is total and is not modelled as fallible.
* `http.Error(w, msg, code)` writes `text/plain; charset=utf-8` and the body
  `msg ++ "\n"` (it uses `fmt.Fprintln`); the model reproduces the newline.
* `json.NewEncoder(w).Encode(v)` is modelled structurally: the body is the
  JSON object written by the encoder (field names from the struct tags),
  keeping numbers as exact rationals rather than formatted decimal strings.
* OpenTelemetry spans and attributes are diagnostic only and never influence
  control flow; they are not modelled.
* External calls made by a function are returned alongside its result, so
  that "no call is made" / "exactly one attempt" claims are statable.
-/

/-- JSON values appearing in response bodies assembled by the services. -/
inductive Jval
  | str (s : String)
  | num (q : ℚ)
  deriving DecidableEq, Repr

/-- A response body: either raw bytes written directly (`w.Write`,
`http.Error`) or a JSON object written by `json.NewEncoder(...).Encode`
(field name / value pairs in struct order, followed on the wire by the
encoder's newline). -/
inductive BodyVal
  | raw (s : String)
  | jsonObj (fields : List (String × Jval))
  deriving DecidableEq, Repr

/-- The parts of an HTTP response a handler writes: status code, the
`Content-Type` header when the handler sets one, and the body. -/
structure HttpResponse where
  status : Nat
  contentType : Option String
  body : BodyVal
  deriving DecidableEq, Repr

/-- Go `http.Error(w, msg, code)`: sets `Content-Type: text/plain;
charset=utf-8` and writes `msg` followed by a newline (`fmt.Fprintln`). -/
def httpError (msg : String) (code : Nat) : HttpResponse :=
  { status := code, contentType := some "text/plain; charset=utf-8",
    body := .raw (msg ++ "\n") }

/-- Decode failures of `encoding/json`, by the concrete error shapes the
package produces when reading a response body into a struct. -/
inductive JsonErr
  | eof
  | unexpectedEOF
  | syntaxError (detail : String)
  | typeError (detail : String)
  deriving DecidableEq, Repr

/-- The `Error()` string of a json decode failure. -/
def JsonErr.message : JsonErr → String
  | .eof => "EOF"
  | .unexpectedEOF => "unexpected EOF"
  | .syntaxError d => "invalid character " ++ d
  | .typeError d => "json: cannot unmarshal " ++ d

/-- Outcome of decoding a response body into a value of type `α`. -/
inductive DecodeResult (α : Type)
  | fail (e : JsonErr)
  | ok (a : α)
  deriving DecidableEq, Repr

/-- What the network returns for one outbound HTTP call: `client.Do` fails at
the transport level (timeout, connection refused, ...) with some inner error
text, or a response arrives with a status code and a body whose decoding
outcome is given. -/
inductive FetchResult (α : Type)
  | transportErr (inner : String)
  | ok (status : Nat) (decode : DecodeResult α)
  deriving DecidableEq, Repr

/-! ## Service B: data model (`servico_b/main.go`) -/

/-- `Local` — the ViaCEP response struct: `Localidade string`, `Erro bool`
(absent fields decode to the zero values `""` / `false`). -/
structure Local where
  localidade : String
  erro : Bool
  deriving DecidableEq, Repr

/-- `Clima` — the WeatherAPI response struct, `current.temp_c`. -/
structure Clima where
  current_temp_c : ℚ
  deriving DecidableEq, Repr

/-- `TemperaturaFinal` — the response struct of Service B, with json tags
`city`, `temp_C`, `temp_F`, `temp_K`. -/
structure TemperaturaFinal where
  city : String
  tempC : ℚ
  tempF : ℚ
  tempK : ℚ
  deriving DecidableEq, Repr

/-- `json.NewEncoder(w).Encode` on `TemperaturaFinal`: the JSON object with
the struct's tag names, in struct order. -/
def TemperaturaFinal.encode (t : TemperaturaFinal) : BodyVal :=
  .jsonObj [("city", .str t.city), ("temp_C", .num t.tempC),
            ("temp_F", .num t.tempF), ("temp_K", .num t.tempK)]

/-- Errors a Service B resolver can return.  `urlErr` is the `*url.Error`
returned by `http.Client.Do`; `jsonErr` a decode failure; `statusErr` the
`fmt.Errorf("weather API returned status %d", ...)` of `GetWeather`;
`notFound` the `fmt.Errorf("can not find zipcode")` of `SearchCep`. -/
inductive BErr
  | urlErr (op url inner : String)
  | jsonErr (e : JsonErr)
  | statusErr (code : Nat)
  | notFound
  deriving DecidableEq, Repr

/-- The Go `Error()` string of each error. -/
def BErr.message : BErr → String
  | .urlErr op url inner => op ++ (" \"" ++ (url ++ ("\": " ++ inner)))
  | .jsonErr e => e.message
  | .statusErr code => "weather API returned status " ++ (Nat.repr code)
  | .notFound => "can not find zipcode"

/-- External calls a request can cause. -/
inductive ExtCall
  | viaCep (url : String)
  | weatherApi (url : String)
  | serviceB (url : String)
  deriving DecidableEq, Repr

/-- The ViaCEP lookup URL built by `SearchCep`. -/
def viaCepURL (cep : String) : String :=
  "https://viacep.com.br/ws/" ++ cep ++ "/json/"

/-- Go `url.QueryEscape`, abstract: the model never needs its definition,
only that `GetWeather` applies it to the city before building the URL.  It
is the identity on the strings appearing in concrete runs here (which
contain no reserved characters). -/
def queryEscape (s : String) : String := s

/-- The WeatherAPI URL built by `GetWeather` (key and query-escaped city). -/
def weatherURL (key city : String) : String :=
  "https://api.weatherapi.com/v1/current.json?key=" ++ key ++ "&q=" ++
    queryEscape city ++ "&aqi=no"

/-! ## `isValidCep` (identical in both services)

`regexp.MatchString("^\\d{8}$", cep)`: Go's RE2 `\d` is the ASCII class
`[0-9]`, and without the multiline flag `^`/`$` anchor at the start/end of
the whole text, so the pattern matches exactly the strings of eight ASCII
digits.  `matchExactDigits n` embeds the anchored match of `\d{n}`. -/

/-- Anchored match of the regular expression `\d{n}` against a character
list: `n` characters, each an ASCII digit, and nothing after them. -/
def matchExactDigits : Nat → List Char → Bool
  | 0, [] => true
  | 0, _ :: _ => false
  | _ + 1, [] => false
  | n + 1, c :: cs => c.isDigit && matchExactDigits n cs

/-- `isValidCep` of both services: `regexp.MatchString("^\\d{8}$", cep)`. -/
def isValidCep (cep : String) : Bool :=
  matchExactDigits 8 cep.data

/-! ## Go `float64` arithmetic

A binary64 number is the rational `m * 2^(e-52)` with `m < 2^53`.  `fl64`
rounds an exact rational to the nearest such number, ties to even, by
scaling into the significand range `[2^52, 2^53)` and rounding the scaled
value to an integer.  Overflow and subnormals do not arise here. -/

/-- Round a rational to an integer, to nearest, ties to even. -/
def roundTiesEven (s : ℚ) : ℤ :=
  if s - ⌊s⌋ < 1/2 then ⌊s⌋
  else if 1/2 < s - ⌊s⌋ then ⌊s⌋ + 1
  else if ⌊s⌋ % 2 = 0 then ⌊s⌋ else ⌊s⌋ + 1

/-- The binary64 value nearest a positive rational `x` (normal range). -/
def fl64pos (x : ℚ) : ℚ :=
  (roundTiesEven (x * 2 ^ ((52:ℤ) - Int.log 2 x)) : ℚ) *
    2 ^ (Int.log 2 x - 52)

/-- The binary64 value nearest `x` (round to nearest, ties to even). -/
def fl64 (x : ℚ) : ℚ :=
  if x = 0 then 0 else if x < 0 then -fl64pos (-x) else fl64pos x

/-- Go `float64` multiplication: exact product, rounded. -/
def mul64 (a b : ℚ) : ℚ := fl64 (a * b)

/-- Go `float64` addition: exact sum, rounded. -/
def add64 (a b : ℚ) : ℚ := fl64 (a + b)

/-- The Go source literal `1.8`, converted at compile time to the nearest
binary64 value (9/5 is not representable). -/
def go1_8 : ℚ := fl64 (9/5)

/-! ## Service B: `SearchCep`, `GetWeather`, `weatherHandler` -/

/-- `SearchCep(ctx, cep)` (`servico_b/main.go`).  Environment: the outcome
of the single `client.Do` on the ViaCEP URL.  Returns the result and the
list of external calls made (always exactly the one lookup). -/
def SearchCep (cep : String) (env : FetchResult Local) :
    Except BErr Local × List ExtCall :=
  let url := viaCepURL cep
  let calls := [ExtCall.viaCep url]
  match env with
  | .transportErr inner => (.error (.urlErr "Get" url inner), calls)
  | .ok _status dec =>
    match dec with
    | .fail e => (.error (.jsonErr e), calls)
    | .ok loc =>
      if loc.erro then (.error .notFound, calls) else (.ok loc, calls)

/-- `GetWeather(ctx, city)` (`servico_b/main.go`).  Environment: the outcome
of the single `client.Do` on the WeatherAPI URL.  Non-200 statuses are
rejected before the body is decoded. -/
def GetWeather (key city : String) (env : FetchResult Clima) :
    Except BErr Clima × List ExtCall :=
  let url := weatherURL key city
  let calls := [ExtCall.weatherApi url]
  match env with
  | .transportErr inner => (.error (.urlErr "Get" url inner), calls)
  | .ok status dec =>
    if status ≠ 200 then (.error (.statusErr status), calls)
    else
      match dec with
      | .fail e => (.error (.jsonErr e), calls)
      | .ok clima => (.ok clima, calls)

/-- `weatherHandler` (`servico_b/main.go`): extract the code from the path
(`r.URL.Path[len("/weather/"):]`), validate, resolve location, resolve
weather, convert, respond.  `envCep` / `envWeather` are the network
outcomes of the two (strictly sequential) external calls. -/
def weatherHandler (key path : String) (envCep : FetchResult Local)
    (envWeather : FetchResult Clima) : HttpResponse × List ExtCall :=
  let cep := path.drop "/weather/".length
  if !isValidCep cep then (httpError "invalid zipcode" 422, [])
  else
    match SearchCep cep envCep with
    | (.error e, calls) =>
      if e.message = "can not find zipcode" then
        (httpError e.message 404, calls)
      else
        (httpError e.message 500, calls)
    | (.ok loc, calls1) =>
      match GetWeather key loc.localidade envWeather with
      | (.error e, calls2) => (httpError e.message 500, calls1 ++ calls2)
      | (.ok clima, calls2) =>
        let tempC := clima.current_temp_c
        let tempF := add64 (mul64 tempC go1_8) 32
        let tempK := add64 tempC 273
        let response : TemperaturaFinal :=
          { city := loc.localidade, tempC := tempC, tempF := tempF,
            tempK := tempK }
        ({ status := 200, contentType := some "application/json",
           body := response.encode }, calls1 ++ calls2)

/-! ## Service A: `handleCepRequest`, `forwardRequestToServiceB` -/

/-- `CepInput` — the request body struct of Service A. -/
structure CepInput where
  cep : String
  deriving DecidableEq, Repr

/-- The outcome of `io.ReadAll(r.Body)` followed by `json.Unmarshal` into
`CepInput`: the stream may fail to read, or the bytes may fail to decode,
or a `CepInput` is obtained. -/
inductive ReadResult
  | readErr (inner : String)
  | readOk (decode : Except JsonErr CepInput)
  deriving Repr

/-- What Service B sends back to Service A, as Service A sees it: a status
code, the `Content-Type` header value (`""` when unset), and the body
bytes. -/
structure DownResp where
  status : Nat
  contentType : String
  body : BodyVal
  deriving DecidableEq, Repr

/-- Request-processing events of Service A, for stating that the body is
never touched / no downstream call is made. -/
inductive AEvent
  | readBody
  | callB (url : String)
  deriving DecidableEq, Repr

/-- `forwardRequestToServiceB` (`servico_a/main.go`): build the downstream
URL, perform the single GET, and on success copy status code,
`Content-Type` header and body verbatim into the outgoing response. -/
def forwardRequestToServiceB (baseURL cep : String)
    (envB : Except String DownResp) : HttpResponse × List AEvent :=
  let url := baseURL ++ "/weather/" ++ cep
  match envB with
  | .error _inner =>
    (httpError "Failed to call service B" 500, [.callB url])
  | .ok resp =>
    ({ status := resp.status, contentType := some resp.contentType,
       body := resp.body }, [.callB url])

/-- `handleCepRequest` (`servico_a/main.go`): POST only, read and decode the
body, validate the code, forward to Service B. -/
def handleCepRequest (baseURL method : String) (rd : ReadResult)
    (envB : Except String DownResp) : HttpResponse × List AEvent :=
  if method ≠ "POST" then (httpError "Method not allowed" 405, [])
  else
    match rd with
    | .readErr _ => (httpError "Error reading request body" 400, [.readBody])
    | .readOk (.error _) => (httpError "Error decoding JSON" 400, [.readBody])
    | .readOk (.ok input) =>
      if !isValidCep input.cep then
        ({ status := 422, contentType := none, body := .raw "invalid zipcode" },
         [.readBody])
      else
        let (resp, calls) := forwardRequestToServiceB baseURL input.cep envB
        (resp, .readBody :: calls)

/-! ## Helper lemmas -/

/-- Characterisation of the anchored `\d{n}` match. -/
theorem matchExactDigits_iff (n : Nat) (l : List Char) :
    matchExactDigits n l = true ↔ l.length = n ∧ ∀ c ∈ l, c.isDigit := by
  induction n generalizing l with
  | zero => cases l <;> simp [matchExactDigits]
  | succ n ih =>
    cases l with
    | nil => simp [matchExactDigits]
    | cons c cs =>
      simp only [matchExactDigits, Bool.and_eq_true, ih, List.length_cons,
        List.mem_cons]
      constructor
      · rintro ⟨hc, hlen, hall⟩
        exact ⟨by omega, fun x hx => hx.elim (fun h => h ▸ hc) (hall x)⟩
      · rintro ⟨hlen, hall⟩
        exact ⟨hall c (Or.inl rfl), by omega, fun x hx => hall x (Or.inr hx)⟩

/-- Two strings differ when the first is a nonempty append whose head differs
from the head of the second. -/
theorem append_ne_of_head_ne {p r t : String} {c₁ c₂ : Char}
    (h₁ : p.data.head? = some c₁) (h₂ : t.data.head? = some c₂)
    (hne : c₁ ≠ c₂) : p ++ r ≠ t := by
  intro h
  have hd : (p ++ r).data = t.data := congrArg String.data h
  rw [String.data_append] at hd
  have hh : (p.data ++ r.data).head? = t.data.head? := congrArg List.head? hd
  rw [List.head?_append, h₁, h₂] at hh
  exact hne (Option.some.injEq _ _ ▸ hh)

/-- A `*url.Error` rendering always contains a quote character, which
`"can not find zipcode"` does not. -/
theorem urlErr_message_ne (op url inner : String) :
    (BErr.urlErr op url inner).message ≠ "can not find zipcode" := by
  intro h
  have hd := congrArg String.data h
  simp only [BErr.message, String.data_append] at hd
  have hq : '"' ∈ op.data ++ (" \"".data ++ (url.data ++ ("\": ".data ++ inner.data))) :=
    List.mem_append.2 (Or.inr (List.mem_append.2 (Or.inl (by decide))))
  rw [hd] at hq
  exact absurd hq (by decide)

/-- Every error other than the not-found error renders to a string different
from `"can not find zipcode"`. -/
theorem BErr.message_eq_notFound_iff (e : BErr) :
    e.message = "can not find zipcode" ↔ e = .notFound := by
  constructor
  · intro h
    cases e with
    | urlErr op url inner => exact absurd h (urlErr_message_ne op url inner)
    | jsonErr je =>
      cases je with
      | eof => exact absurd h (by decide)
      | unexpectedEOF => exact absurd h (by decide)
      | syntaxError d =>
        exact absurd h (@append_ne_of_head_ne _ _ _ 'i' 'c' rfl rfl
          (by decide))
      | typeError d =>
        exact absurd h (@append_ne_of_head_ne _ _ _ 'j' 'c' rfl rfl
          (by decide))
    | statusErr code =>
      exact absurd h (@append_ne_of_head_ne _ _ _ 'w' 'c' rfl rfl
        (by decide))
    | notFound => rfl
  · rintro rfl; rfl

/-- `Char.isDigit` agrees with membership in the range `'0'..'9'`. -/
theorem isDigit_iff_range (c : Char) :
    c.isDigit = true ↔ ('0' ≤ c ∧ c ≤ '9') := by
  have h : c.isDigit = ('0' ≤ c && c ≤ '9') := by
    simp [Char.isDigit, Char.le_def]
  rw [h]
  simp

/-- `Int.log 2` is pinned by bracketing powers of two. -/
theorem int_log2_eq {x : ℚ} {e : ℤ} (hx : 0 < x)
    (h1 : (2:ℚ)^e ≤ x) (h2 : x < (2:ℚ)^(e+1)) : Int.log 2 x = e := by
  have ha : e ≤ Int.log 2 x := by
    rw [← Int.zpow_le_iff_le_log (by norm_num : 1 < 2) hx]
    exact_mod_cast h1
  have hb : Int.log 2 x < e + 1 := by
    rw [← Int.lt_zpow_iff_log_lt (by norm_num : 1 < 2) hx]
    exact_mod_cast h2
  omega

/-- Rounding below the midpoint goes down. -/
theorem roundTiesEven_eq_of_lt {S : ℚ} {q : ℤ} (hq : ⌊S⌋ = q)
    (h : S - q < 1/2) : roundTiesEven S = q := by
  unfold roundTiesEven
  rw [hq, if_pos h]

/-- Rounding above the midpoint goes up. -/
theorem roundTiesEven_eq_of_gt {S : ℚ} {q : ℤ} (hq : ⌊S⌋ = q)
    (h : 1/2 < S - q) : roundTiesEven S = q + 1 := by
  unfold roundTiesEven
  rw [hq, if_neg (by linarith), if_pos h]

/-- A midpoint over an odd floor rounds up (to the even neighbour). -/
theorem roundTiesEven_eq_of_tie_odd {S : ℚ} {q : ℤ} (hq : ⌊S⌋ = q)
    (h : S - q = 1/2) (ho : q % 2 = 1) : roundTiesEven S = q + 1 := by
  unfold roundTiesEven
  rw [hq, if_neg (by rw [h]; norm_num), if_neg (by rw [h]; exact lt_irrefl _),
    if_neg (by omega)]

/-- Evaluation scheme for `fl64` at a positive rational: supply the
exponent, the rounded significand and the resulting value. -/
theorem fl64_eq {x v : ℚ} {e m : ℤ} (hx : 0 < x)
    (hlog : Int.log 2 x = e)
    (hround : roundTiesEven (x * 2 ^ ((52:ℤ) - e)) = m)
    (hv : (m:ℚ) * 2 ^ (e - 52) = v) :
    fl64 x = v := by
  unfold fl64 fl64pos
  rw [if_neg (ne_of_gt hx), if_neg (not_lt.2 hx.le), hlog, hround, hv]

/-- The binary64 value of the Go literal `1.8`. -/
theorem go1_8_eq : go1_8 = 8106479329266893 / 4503599627370496 := by
  refine @fl64_eq _ _ 0 (8106479329266892 + 1) (by norm_num)
    (int_log2_eq (by norm_num) (by norm_num) (by norm_num)) ?_ (by norm_num)
  rw [show (9/5 : ℚ) * 2 ^ ((52:ℤ) - 0) = 40532396646334464/5 by norm_num]
  exact roundTiesEven_eq_of_gt
    (by rw [Int.floor_eq_iff]; norm_num) (by norm_num)

/-- The float64 product `21 * 1.8` (the exact product rounds up). -/
theorem mul64_21_go1_8 :
    mul64 21 go1_8 = 5319877059831399 / 140737488355328 := by
  unfold mul64
  rw [go1_8_eq,
    show (21:ℚ) * (8106479329266893 / 4503599627370496) =
      170236065914604753 / 4503599627370496 by norm_num]
  refine @fl64_eq _ _ 5 (5319877059831398 + 1) (by norm_num)
    (int_log2_eq (by norm_num) (by norm_num) (by norm_num)) ?_ (by norm_num)
  rw [show (170236065914604753 / 4503599627370496 : ℚ) * 2 ^ ((52:ℤ) - 5) =
    170236065914604753/32 by norm_num]
  exact roundTiesEven_eq_of_gt
    (by rw [Int.floor_eq_iff]; norm_num) (by norm_num)

/-- The float64 sum `float64(21*1.8) + 32`: an exact tie over an odd floor,
rounded to even — the double 69.80000000000001, not 69.8. -/
theorem add64_F21 :
    add64 (5319877059831399 / 140737488355328) 32 =
      1227934585900237 / 17592186044416 := by
  unfold add64
  rw [show (5319877059831399 / 140737488355328 : ℚ) + 32 =
    9823476687201895 / 140737488355328 by norm_num]
  refine @fl64_eq _ _ 6 (4911738343600947 + 1) (by norm_num)
    (int_log2_eq (by norm_num) (by norm_num) (by norm_num)) ?_ (by norm_num)
  rw [show (9823476687201895 / 140737488355328 : ℚ) * 2 ^ ((52:ℤ) - 6) =
    9823476687201895/2 by norm_num]
  exact roundTiesEven_eq_of_tie_odd
    (by rw [Int.floor_eq_iff]; norm_num) (by norm_num) (by norm_num)

/-- The float64 sum `21 + 273` is exact: 294. -/
theorem add64_21_273 : add64 (21:ℚ) 273 = 294 := by
  unfold add64
  rw [show (21:ℚ) + 273 = 294 by norm_num]
  refine @fl64_eq _ _ 8 5172102697058304 (by norm_num)
    (int_log2_eq (by norm_num) (by norm_num) (by norm_num)) ?_ (by norm_num)
  rw [show (294 : ℚ) * 2 ^ ((52:ℤ) - 8) = 5172102697058304 by norm_num]
  exact roundTiesEven_eq_of_lt
    (by rw [Int.floor_eq_iff]; norm_num) (by norm_num)

/-- The float64 product `28.5 * 1.8` (the exact product rounds up). -/
theorem mul64_285_go1_8 :
    mul64 (28.5:ℚ) go1_8 = 7219833152628327 / 140737488355328 := by
  unfold mul64
  rw [go1_8_eq,
    show (28.5:ℚ) * (8106479329266893 / 4503599627370496) =
      462069321768212901 / 9007199254740992 by norm_num]
  refine @fl64_eq _ _ 5 (7219833152628326 + 1) (by norm_num)
    (int_log2_eq (by norm_num) (by norm_num) (by norm_num)) ?_ (by norm_num)
  rw [show (462069321768212901 / 9007199254740992 : ℚ) * 2 ^ ((52:ℤ) - 5) =
    462069321768212901/64 by norm_num]
  exact roundTiesEven_eq_of_gt
    (by rw [Int.floor_eq_iff]; norm_num) (by norm_num)

/-- The float64 sum `float64(28.5*1.8) + 32`: an exact tie over an odd
floor, rounded to even — the double 83.30000000000001, not 83.3. -/
theorem add64_F285 :
    add64 (7219833152628327 / 140737488355328) 32 =
      1465429097499853 / 17592186044416 := by
  unfold add64
  rw [show (7219833152628327 / 140737488355328 : ℚ) + 32 =
    11723432779998823 / 140737488355328 by norm_num]
  refine @fl64_eq _ _ 6 (5861716389999411 + 1) (by norm_num)
    (int_log2_eq (by norm_num) (by norm_num) (by norm_num)) ?_ (by norm_num)
  rw [show (11723432779998823 / 140737488355328 : ℚ) * 2 ^ ((52:ℤ) - 6) =
    11723432779998823/2 by norm_num]
  exact roundTiesEven_eq_of_tie_odd
    (by rw [Int.floor_eq_iff]; norm_num) (by norm_num) (by norm_num)

/-- The float64 sum `28.5 + 273` is exact: 301.5. -/
theorem add64_285_273 : add64 (28.5:ℚ) 273 = 301.5 := by
  unfold add64
  rw [show (28.5:ℚ) + 273 = 603/2 by norm_num]
  refine @fl64_eq _ _ 8 5304044092391424 (by norm_num)
    (int_log2_eq (by norm_num) (by norm_num) (by norm_num)) ?_ (by norm_num)
  rw [show (603/2 : ℚ) * 2 ^ ((52:ℤ) - 8) = 5304044092391424 by norm_num]
  exact roundTiesEven_eq_of_lt
    (by rw [Int.floor_eq_iff]; norm_num) (by norm_num)

/-! ## The claims -/

/-- C1: for every string `s`, the CEP validator `isValidCep` (identical in
Service A and Service B) returns true iff `s` has length exactly 8 and every
character of `s` is a decimal digit; in particular `"12345678"` is valid and
`"12345"`, `"123456789"`, `"1234567a"`, `""` are invalid. -/
theorem isValidCep_iff_eight_digits :
    (∀ s : String, isValidCep s = true ↔
      (s.length = 8 ∧ ∀ c ∈ s.data, '0' ≤ c ∧ c ≤ '9')) ∧
    isValidCep "12345678" = true ∧ isValidCep "12345" = false ∧
    isValidCep "123456789" = false ∧ isValidCep "1234567a" = false ∧
    isValidCep "" = false := by
  refine ⟨fun s => ?_, by decide, by decide, by decide, by decide, by decide⟩
  rw [isValidCep, matchExactDigits_iff]
  have hlen : s.length = s.data.length := rfl
  rw [hlen]
  constructor
  · rintro ⟨h1, h2⟩
    exact ⟨h1, fun c hc => (isDigit_iff_range c).1 (h2 c hc)⟩
  · rintro ⟨h1, h2⟩
    exact ⟨h1, fun c hc => (isDigit_iff_range c).2 (h2 c hc)⟩

/-- C2 counterexample: at `c = 28.5` the handler does not produce the
exact-conversion body — float64 rounding makes `temp_F` the double
83.30000000000001, not `28.5*1.8+32 = 83.3`. -/
theorem conversion_exact_counterexample :
    (weatherHandler "k" "/weather/01001000" (.ok 200 (.ok ⟨"X", false⟩))
        (.ok 200 (.ok ⟨28.5⟩))).1.body ≠
      .jsonObj [("city", .str "X"), ("temp_C", .num 28.5),
                ("temp_F", .num ((28.5:ℚ) * 1.8 + 32)),
                ("temp_K", .num ((28.5:ℚ) + 273))] := by
  have h1 : (weatherHandler "k" "/weather/01001000" (.ok 200 (.ok ⟨"X", false⟩))
      (.ok 200 (.ok ⟨28.5⟩))).1.body =
    .jsonObj [("city", .str "X"), ("temp_C", .num 28.5),
              ("temp_F", .num (add64 (mul64 (28.5:ℚ) go1_8) 32)),
              ("temp_K", .num (add64 (28.5:ℚ) 273))] := rfl
  rw [h1, mul64_285_go1_8, add64_F285]
  intro h
  simp only [BodyVal.jsonObj.injEq, List.cons.injEq, Prod.mk.injEq,
    Jval.num.injEq, Jval.str.injEq] at h
  have hF : (1465429097499853 / 17592186044416 : ℚ) = (28.5:ℚ) * 1.8 + 32 :=
    h.2.2.1.2
  norm_num at hF

/-- C2 (amended): on the success path the handler computes fahrenheit as
the float64 evaluation of `c*1.8+32` — the literal 1.8, the multiplication
and the addition each rounded to the nearest binary64 — and kelvin as the
float64 evaluation of `c+273` (offset 273, not 273.15); for `c = 28.5`
kelvin is exactly 301.5, while fahrenheit is the double
83.30000000000001 (exactly 1465429097499853/2^44), which differs from 83.3
though by less than 1/1000. -/
theorem weatherHandler_float_conversion :
    (∀ (key city : String) (c : ℚ) (st : Nat),
      (weatherHandler key "/weather/01001000" (.ok st (.ok ⟨city, false⟩))
          (.ok 200 (.ok ⟨c⟩))).1.body =
        .jsonObj [("city", .str city), ("temp_C", .num c),
                  ("temp_F", .num (add64 (mul64 c go1_8) 32)),
                  ("temp_K", .num (add64 c 273))]) ∧
    go1_8 = 8106479329266893 / 4503599627370496 ∧
    add64 (mul64 (28.5:ℚ) go1_8) 32 = 1465429097499853 / 17592186044416 ∧
    add64 (28.5:ℚ) 273 = 301.5 ∧
    (1465429097499853 / 17592186044416 : ℚ) ≠ 83.3 ∧
    |(1465429097499853 / 17592186044416 : ℚ) - 83.3| < 1/1000 := by
  refine ⟨fun key city c st => rfl, go1_8_eq, ?_, add64_285_273, by norm_num,
    by rw [abs_sub_lt_iff]; norm_num⟩
  rw [mul64_285_go1_8, add64_F285]

/-- C6: Service A's forwarding handler copies the downstream response's
status code, `Content-Type` header and body verbatim into its own response,
for every downstream response; in particular a 404 / `can not find zipcode`
response from Service B reaches the client with identical status and
body. -/
theorem forward_relays_verbatim :
    (∀ (baseURL cep : String) (d : DownResp),
      forwardRequestToServiceB baseURL cep (.ok d) =
        ({ status := d.status, contentType := some d.contentType,
           body := d.body },
         [.callB (baseURL ++ "/weather/" ++ cep)])) ∧
    forwardRequestToServiceB "http://service-b:8081" "99999999"
        (.ok ⟨404, "text/plain; charset=utf-8",
              .raw "can not find zipcode\n"⟩) =
      ({ status := 404, contentType := some "text/plain; charset=utf-8",
         body := .raw "can not find zipcode\n" },
       [.callB "http://service-b:8081/weather/99999999"]) :=
  ⟨fun _ _ _ => rfl, by decide⟩

/-- C7: any request to Service A whose method is not POST is answered with
status 405 and no body processing at all: the body is never read (no
`readBody` event) and no downstream call is made. -/
theorem method_not_allowed_no_body :
    ∀ (baseURL method : String) (rd : ReadResult)
      (envB : Except String DownResp),
      method ≠ "POST" →
      handleCepRequest baseURL method rd envB =
        (httpError "Method not allowed" 405, []) := by
  intro baseURL method rd envB h
  simp [handleCepRequest, h]

/-- Witness for C7 at the concrete read-method request `GET`. -/
theorem method_not_allowed_no_body_witness :
    handleCepRequest "http://service-b:8081" "GET" (.readOk (.error .eof))
        (.error "unreachable") =
      (httpError "Method not allowed" 405, []) :=
  method_not_allowed_no_body "http://service-b:8081" "GET" _ _ (by decide)

/-- C9: both handlers are deterministic functions of the request input and
the dependency responses: two runs on equal inputs produce equal outputs
(status, headers, body, and external calls); no hidden state accumulates. -/
theorem handlers_deterministic :
    (∀ (baseURL m₁ m₂ : String) (rd₁ rd₂ : ReadResult)
        (e₁ e₂ : Except String DownResp),
      m₁ = m₂ → rd₁ = rd₂ → e₁ = e₂ →
      handleCepRequest baseURL m₁ rd₁ e₁ = handleCepRequest baseURL m₂ rd₂ e₂) ∧
    (∀ (key p₁ p₂ : String) (ec₁ ec₂ : FetchResult Local)
        (ew₁ ew₂ : FetchResult Clima),
      p₁ = p₂ → ec₁ = ec₂ → ew₁ = ew₂ →
      weatherHandler key p₁ ec₁ ew₁ = weatherHandler key p₂ ec₂ ew₂) :=
  ⟨fun _ _ _ _ _ _ _ h1 h2 h3 => by rw [h1, h2, h3],
   fun _ _ _ _ _ _ _ h1 h2 h3 => by rw [h1, h2, h3]⟩

/-- Witness for C9: two runs of each handler on an identical concrete
request and identical dependency responses. -/
theorem handlers_deterministic_witness :
    handleCepRequest "http://service-b:8081" "POST"
        (.readOk (.ok ⟨"01001000"⟩)) (.error "down") =
      handleCepRequest "http://service-b:8081" "POST"
        (.readOk (.ok ⟨"01001000"⟩)) (.error "down") ∧
    weatherHandler "k" "/weather/01001000" (.ok 200 (.ok ⟨"São Paulo", false⟩))
        (.ok 200 (.ok ⟨21⟩)) =
      weatherHandler "k" "/weather/01001000"
        (.ok 200 (.ok ⟨"São Paulo", false⟩)) (.ok 200 (.ok ⟨21⟩)) :=
  ⟨handlers_deterministic.1 "http://service-b:8081" "POST" "POST"
      (.readOk (.ok ⟨"01001000"⟩)) (.readOk (.ok ⟨"01001000"⟩))
      (.error "down") (.error "down") rfl rfl rfl,
   handlers_deterministic.2 "k" "/weather/01001000" "/weather/01001000"
      (.ok 200 (.ok ⟨"São Paulo", false⟩)) (.ok 200 (.ok ⟨"São Paulo", false⟩))
      (.ok 200 (.ok ⟨21⟩)) (.ok 200 (.ok ⟨21⟩)) rfl rfl rfl⟩

/-- C10: `SearchCep` never inspects the HTTP status code of the lookup
response: whenever the body decodes to a `Local` with the not-found flag
false it succeeds — for every status code and even for an empty locality
name — and the pipeline then queries the weather service with that (possibly
empty) city. -/
theorem searchCep_ignores_status :
    (∀ (cep : String) (st : Nat) (loc : Local), loc.erro = false →
      (SearchCep cep (.ok st (.ok loc))).1 = .ok loc) ∧
    (∀ (key path : String) (st : Nat) (name : String)
        (envW : FetchResult Clima),
      isValidCep (path.drop "/weather/".length) = true →
      (weatherHandler key path (.ok st (.ok ⟨name, false⟩)) envW).2 =
        [.viaCep (viaCepURL (path.drop "/weather/".length)),
         .weatherApi (weatherURL key name)]) := by
  constructor
  · intro cep st loc h
    simp [SearchCep, h]
  · intro key path st name envW h
    cases envW with
    | transportErr inner => simp [weatherHandler, SearchCep, GetWeather, h]
    | ok st2 dec =>
      cases dec with
      | fail e =>
        by_cases hst : st2 = 200 <;>
          simp [weatherHandler, SearchCep, GetWeather, h, hst]
      | ok clima =>
        by_cases hst : st2 = 200 <;>
          simp [weatherHandler, SearchCep, GetWeather, h, hst]

/-- Witness for C10: a non-success status (500) from the lookup service with
a decoded body whose flag is false and whose locality is empty still reaches
the weather service, with the empty city in the query URL. -/
theorem searchCep_ignores_status_witness :
    (SearchCep "01001000" (.ok 500 (.ok ⟨"", false⟩))).1 = .ok ⟨"", false⟩ ∧
    (weatherHandler "k" "/weather/01001000" (.ok 500 (.ok ⟨"", false⟩))
        (.ok 200 (.ok ⟨21⟩))).2 =
      [.viaCep (viaCepURL ("/weather/01001000".drop "/weather/".length)),
       .weatherApi (weatherURL "k" "")] :=
  ⟨searchCep_ignores_status.1 "01001000" 500 ⟨"", false⟩ rfl,
   searchCep_ignores_status.2 "k" "/weather/01001000" 500 "" _ (by decide)⟩

/-- C3 counterexample: with the lookup reporting the not-found flag, the
handler does answer 404, but its body is not the resolver's message — the
error helper writes the message followed by a newline. -/
theorem notFound_body_counterexample :
    (weatherHandler "k" "/weather/99999999" (.ok 200 (.ok ⟨"", true⟩))
        (.ok 200 (.ok ⟨21⟩))).1.status = 404 ∧
    (weatherHandler "k" "/weather/99999999" (.ok 200 (.ok ⟨"", true⟩))
        (.ok 200 (.ok ⟨21⟩))).1.body ≠ .raw BErr.notFound.message := by
  decide

/-- C3 (amended): `SearchCep` returns the not-found error (message
`can not find zipcode`) iff the response body decodes with the not-found
flag set; a decode failure is returned as the decode (transport-class)
error, never as not-found; the orchestrator maps exactly the not-found
error to 404 and every other `SearchCep` failure to 500, with the error's
message followed by a newline as body (the line-writing error helper). -/
theorem searchCep_notFound_mapping :
    (∀ (cep : String) (env : FetchResult Local),
      (SearchCep cep env).1 = .error .notFound ↔
        ∃ st loc, env = .ok st (.ok loc) ∧ loc.erro = true) ∧
    BErr.notFound.message = "can not find zipcode" ∧
    (∀ (cep : String) (st : Nat) (e : JsonErr),
      (SearchCep cep (.ok st (.fail e))).1 = .error (.jsonErr e)) ∧
    (∀ (key path : String) (envW : FetchResult Clima) (st : Nat) (loc : Local),
      isValidCep (path.drop "/weather/".length) = true → loc.erro = true →
      (weatherHandler key path (.ok st (.ok loc)) envW).1 =
        httpError "can not find zipcode" 404) ∧
    (∀ (key path : String) (envW : FetchResult Clima) (inner : String),
      isValidCep (path.drop "/weather/".length) = true →
      (weatherHandler key path (.transportErr inner) envW).1 =
        httpError (BErr.urlErr "Get"
          (viaCepURL (path.drop "/weather/".length)) inner).message 500) ∧
    (∀ (key path : String) (envW : FetchResult Clima) (st : Nat) (e : JsonErr),
      isValidCep (path.drop "/weather/".length) = true →
      (weatherHandler key path (.ok st (.fail e)) envW).1 =
        httpError (BErr.jsonErr e).message 500) := by
  refine ⟨?_, rfl, ?_, ?_, ?_, ?_⟩
  · intro cep env
    cases env with
    | transportErr inner => simp [SearchCep]
    | ok st dec =>
      cases dec with
      | fail e => simp [SearchCep]
      | ok loc =>
        by_cases h : loc.erro
        · simp [SearchCep, h]
          exact ⟨st, loc, ⟨rfl, rfl⟩, h⟩
        · simp [SearchCep, h]
  · intro cep st e
    simp [SearchCep]
  · intro key path envW st loc hv he
    simp [weatherHandler, SearchCep, hv, he, BErr.message]
  · intro key path envW inner hv
    simp [weatherHandler, SearchCep, hv, urlErr_message_ne]
  · intro key path envW st e hv
    have hne : (BErr.jsonErr e).message ≠ "can not find zipcode" := by
      intro hm
      simpa using (BErr.message_eq_notFound_iff _).1 hm
    simp [weatherHandler, SearchCep, hv, hne]

/-- Witness for C3 at concrete inputs: a not-found flag yields 404, a
transport failure and a decode failure each yield 500. -/
theorem searchCep_notFound_mapping_witness :
    isValidCep ("/weather/99999999".drop "/weather/".length) = true ∧
    (weatherHandler "k" "/weather/99999999" (.ok 200 (.ok ⟨"", true⟩))
        (.ok 200 (.ok ⟨21⟩))).1 = httpError "can not find zipcode" 404 ∧
    (weatherHandler "k" "/weather/01001000" (.transportErr "connection refused")
        (.ok 200 (.ok ⟨21⟩))).1 =
      httpError (BErr.urlErr "Get"
        (viaCepURL ("/weather/01001000".drop "/weather/".length))
        "connection refused").message 500 ∧
    (weatherHandler "k" "/weather/01001000" (.ok 200 (.fail .unexpectedEOF))
        (.ok 200 (.ok ⟨21⟩))).1 =
      httpError (BErr.jsonErr .unexpectedEOF).message 500 :=
  ⟨by decide,
   searchCep_notFound_mapping.2.2.2.1 "k" "/weather/99999999" _ 200
     ⟨"", true⟩ (by decide) rfl,
   searchCep_notFound_mapping.2.2.2.2.1 "k" "/weather/01001000" _
     "connection refused" (by decide),
   searchCep_notFound_mapping.2.2.2.2.2 "k" "/weather/01001000" _ 200
     .unexpectedEOF (by decide)⟩

/-- C5 counterexample: on an invalid code, Service B's handler does answer
422, but its body is not literally `invalid zipcode` — the error helper
appends a newline (the repository's own test asserts the trailing
newline). -/
theorem invalid_zipcode_body_counterexample :
    (weatherHandler "k" "/weather/123" (.ok 200 (.ok ⟨"", false⟩))
        (.ok 200 (.ok ⟨21⟩))).1.status = 422 ∧
    (weatherHandler "k" "/weather/123" (.ok 200 (.ok ⟨"", false⟩))
        (.ok 200 (.ok ⟨21⟩))).1.body ≠ .raw "invalid zipcode" := by
  decide

/-- C5 (amended): on a request whose CEP fails validation, both handlers
answer 422 and make no downstream or external call; Service A writes the
body exactly `invalid zipcode` (no JSON wrapping, no newline), while
Service B writes `invalid zipcode` followed by a newline (its error
helper terminates the line). -/
theorem invalid_zipcode_rejected :
    (∀ (baseURL : String) (input : CepInput) (envB : Except String DownResp),
      isValidCep input.cep = false →
      handleCepRequest baseURL "POST" (.readOk (.ok input)) envB =
        ({ status := 422, contentType := none, body := .raw "invalid zipcode" },
         [.readBody])) ∧
    (∀ (key path : String) (envCep : FetchResult Local)
        (envW : FetchResult Clima),
      isValidCep (path.drop "/weather/".length) = false →
      weatherHandler key path envCep envW =
        (httpError "invalid zipcode" 422, [])) := by
  constructor
  · intro baseURL input envB h
    simp [handleCepRequest, h]
  · intro key path envCep envW h
    simp [weatherHandler, h]

/-- Witness for C5 at the concrete invalid code `123`. -/
theorem invalid_zipcode_rejected_witness :
    isValidCep "123" = false ∧
    handleCepRequest "http://service-b:8081" "POST" (.readOk (.ok ⟨"123"⟩))
        (.error "unreachable") =
      ({ status := 422, contentType := none, body := .raw "invalid zipcode" },
       [.readBody]) ∧
    weatherHandler "k" "/weather/123" (.ok 200 (.ok ⟨"", false⟩))
        (.ok 200 (.ok ⟨21⟩)) =
      (httpError "invalid zipcode" 422, []) :=
  ⟨by decide,
   invalid_zipcode_rejected.1 "http://service-b:8081" ⟨"123"⟩ _ (by decide),
   invalid_zipcode_rejected.2 "k" "/weather/123" _ _ (by decide)⟩

/-- C8 counterexample: on a non-success upstream status the handler does
answer 500 and the error carries the upstream status number, but the body
is not the failure message — the error helper appends a newline. -/
theorem getWeather_body_counterexample :
    (weatherHandler "k" "/weather/01001000" (.ok 200 (.ok ⟨"SP", false⟩))
        (.ok 503 (.ok ⟨0⟩))).1.status = 500 ∧
    (weatherHandler "k" "/weather/01001000" (.ok 200 (.ok ⟨"SP", false⟩))
        (.ok 503 (.ok ⟨0⟩))).1.body ≠ .raw (BErr.statusErr 503).message := by
  decide

/-- C8 (amended): `GetWeather` makes exactly one attempt per call (its call
list is the single weather lookup, with no retries), fails exactly on
transport failure, non-200 status (the error carrying the upstream status
number), or decode failure, and the orchestrator maps every `GetWeather`
failure to 500 with the failure message followed by a newline as body. -/
theorem getWeather_single_attempt_errors :
    (∀ (key city : String) (env : FetchResult Clima),
      (GetWeather key city env).2 = [.weatherApi (weatherURL key city)]) ∧
    (∀ (key city : String) (env : FetchResult Clima),
      (∃ e, (GetWeather key city env).1 = .error e) ↔
        ((∃ inner, env = .transportErr inner) ∨
         (∃ st dec, env = .ok st dec ∧ st ≠ 200) ∨
         (∃ st e', env = .ok st (.fail e')))) ∧
    (∀ (key city : String) (st : Nat) (dec : DecodeResult Clima), st ≠ 200 →
      (GetWeather key city (.ok st dec)).1 = .error (.statusErr st) ∧
      (BErr.statusErr st).message =
        "weather API returned status " ++ Nat.repr st) ∧
    (∀ (key path : String) (st : Nat) (loc : Local) (e : BErr)
        (envW : FetchResult Clima),
      isValidCep (path.drop "/weather/".length) = true → loc.erro = false →
      (GetWeather key loc.localidade envW).1 = .error e →
      (weatherHandler key path (.ok st (.ok loc)) envW).1 =
        httpError e.message 500) := by
  refine ⟨?_, ?_, ?_, ?_⟩
  · intro key city env
    cases env with
    | transportErr inner => rfl
    | ok st dec =>
      by_cases hst : st = 200
      · cases dec <;> simp [GetWeather, hst]
      · simp [GetWeather, hst]
  · intro key city env
    cases env with
    | transportErr inner => simp [GetWeather]
    | ok st dec =>
      by_cases hst : st = 200
      · subst hst
        cases dec with
        | fail e => simp [GetWeather]
        | ok clima => simp [GetWeather]
      · cases dec with
        | fail e => simp [GetWeather, hst]
        | ok clima => simp [GetWeather, hst]
  · intro key city st dec hst
    exact ⟨by simp [GetWeather, hst], rfl⟩
  · intro key path st loc e envW hv he hge
    rcases hG : GetWeather key loc.localidade envW with ⟨r, calls⟩
    rw [hG] at hge
    simp only at hge
    subst hge
    simp [weatherHandler, SearchCep, hv, he, hG]

/-- Witness for C8 at concrete inputs: a 503 upstream status fails with the
status number in the message and is answered with 500 by the handler. -/
theorem getWeather_single_attempt_errors_witness :
    (GetWeather "k" "SP" (.ok 503 (.ok ⟨0⟩))).2 =
      [.weatherApi (weatherURL "k" "SP")] ∧
    ((503 : Nat) ≠ 200 ∧
      (GetWeather "k" "SP" (.ok 503 (.ok ⟨0⟩))).1 = .error (.statusErr 503)) ∧
    (weatherHandler "k" "/weather/01001000" (.ok 200 (.ok ⟨"SP", false⟩))
        (.ok 503 (.ok ⟨0⟩))).1 = httpError (BErr.statusErr 503).message 500 :=
  ⟨getWeather_single_attempt_errors.1 "k" "SP" (.ok 503 (.ok ⟨0⟩)),
   ⟨by decide,
    (getWeather_single_attempt_errors.2.2.1 "k" "SP" 503 (.ok ⟨0⟩)
      (by decide)).1⟩,
   getWeather_single_attempt_errors.2.2.2 "k" "/weather/01001000" 200
     ⟨"SP", false⟩ (.statusErr 503) (.ok 503 (.ok ⟨0⟩)) (by decide) rfl
     ((getWeather_single_attempt_errors.2.2.1 "k" "SP" 503 (.ok ⟨0⟩)
       (by decide)).1)⟩

/-- C4 counterexample: in the end-to-end success scenario Service B's body
is not the claimed JSON object — float64 rounding of `21*1.8` and of the
subsequent addition makes `temp_F` the double 69.80000000000001, not
69.8. -/
theorem end_to_end_body_counterexample :
    (weatherHandler "key" "/weather/01001000"
        (.ok 200 (.ok ⟨"São Paulo", false⟩)) (.ok 200 (.ok ⟨21⟩))).1.body ≠
      .jsonObj [("city", .str "São Paulo"), ("temp_C", .num 21),
                ("temp_F", .num 69.8), ("temp_K", .num 294)] := by
  have h1 : (weatherHandler "key" "/weather/01001000"
      (.ok 200 (.ok ⟨"São Paulo", false⟩)) (.ok 200 (.ok ⟨21⟩))).1.body =
    .jsonObj [("city", .str "São Paulo"), ("temp_C", .num 21),
              ("temp_F", .num (add64 (mul64 (21:ℚ) go1_8) 32)),
              ("temp_K", .num (add64 (21:ℚ) 273))] := rfl
  rw [h1, mul64_21_go1_8, add64_F21]
  intro h
  simp only [BodyVal.jsonObj.injEq, List.cons.injEq, Prod.mk.injEq,
    Jval.num.injEq, Jval.str.injEq] at h
  have hF : (1227934585900237 / 17592186044416 : ℚ) = 69.8 := h.2.2.1.2
  norm_num at hF

/-- C4 (amended): end-to-end success.  With the location lookup returning
locality `São Paulo` and the weather lookup returning 21.0 °C, Service B
answers 200 with the JSON object `city`/`temp_C`/`temp_F`/`temp_K` =
`São Paulo` / 21 / 69.80000000000001 (exactly 1227934585900237/2^44, the
float64 value of `21*1.8+32`) / 294, and Service A relays that response
unchanged: the client receives status 200 and exactly that JSON object,
whose field names are exactly `city`, `temp_C`, `temp_F`, `temp_K`. -/
theorem end_to_end_success_float :
    (weatherHandler "key" "/weather/01001000"
        (.ok 200 (.ok ⟨"São Paulo", false⟩)) (.ok 200 (.ok ⟨21⟩))).1 =
      { status := 200, contentType := some "application/json",
        body := .jsonObj [("city", .str "São Paulo"), ("temp_C", .num 21),
                          ("temp_F", .num (1227934585900237 / 17592186044416)),
                          ("temp_K", .num 294)] } ∧
    (handleCepRequest "http://service-b:8081" "POST"
        (.readOk (.ok ⟨"01001000"⟩))
        (.ok ⟨(weatherHandler "key" "/weather/01001000"
                 (.ok 200 (.ok ⟨"São Paulo", false⟩))
                 (.ok 200 (.ok ⟨21⟩))).1.status,
              "application/json",
              (weatherHandler "key" "/weather/01001000"
                 (.ok 200 (.ok ⟨"São Paulo", false⟩))
                 (.ok 200 (.ok ⟨21⟩))).1.body⟩)).1 =
      { status := 200, contentType := some "application/json",
        body := .jsonObj [("city", .str "São Paulo"), ("temp_C", .num 21),
                          ("temp_F", .num (1227934585900237 / 17592186044416)),
                          ("temp_K", .num 294)] } ∧
    (match (handleCepRequest "http://service-b:8081" "POST"
        (.readOk (.ok ⟨"01001000"⟩))
        (.ok ⟨200, "application/json",
              .jsonObj [("city", .str "São Paulo"), ("temp_C", .num 21),
                        ("temp_F", .num (1227934585900237 / 17592186044416)),
                        ("temp_K", .num 294)]⟩)).1.body
      with
      | .jsonObj fields => fields.map Prod.fst
      | .raw _ => []) = ["city", "temp_C", "temp_F", "temp_K"] := by
  have h1 : (weatherHandler "key" "/weather/01001000"
      (.ok 200 (.ok ⟨"São Paulo", false⟩)) (.ok 200 (.ok ⟨21⟩))).1 =
    { status := 200, contentType := some "application/json",
      body := .jsonObj [("city", .str "São Paulo"), ("temp_C", .num 21),
                        ("temp_F", .num (add64 (mul64 (21:ℚ) go1_8) 32)),
                        ("temp_K", .num (add64 (21:ℚ) 273))] } := rfl
  rw [mul64_21_go1_8, add64_F21, add64_21_273] at h1
  refine ⟨h1, ?_, by decide⟩
  rw [h1]
  rfl
